import Mathlib

/-!
Shallow embedding of the master-side cluster handler
(`framework/wazuh/cluster/master.py`) and proofs about the frozen claims.

Conventions of the embedding:
* Python dicts keyed by strings become association lists (`List (String × α)`)
  with `dictGet` / `dictSet` (assignment keeps the position of an existing key
  and appends a new one, like CPython dicts preserve insertion order).
* `asyncio.Event` becomes a `Bool` flag (`set()` turns it to `true`; setting an
  already-set event is the identity).
* `datetime` values carry whole seconds and microseconds (`strptime` with
  `%H:%M:%S.%f` yields microsecond precision); `timetuple()` drops the
  microseconds and `datetime.utcfromtimestamp(int(st_mtime))` truncates the
  filesystem time to whole seconds, exactly as in the source.
* External collaborators (`cluster.compare_files`, `cluster.unmerge_agent_info`,
  `Agent.get_agents_overview`, the base-class `hello`) are modelled as inputs:
  their outputs are parameters of the embedded functions, matching the spec's
  "interfaces only" treatment of those collaborators.
-/

namespace WazuhMaster

/-- Association-list read, mirroring a Python dict lookup. -/
def dictGet {α : Type} (m : List (String × α)) (k : String) : Option α :=
  match m with
  | [] => none
  | (k2, v) :: rest => if k2 = k then some v else dictGet rest k

/-- Association-list write, mirroring a Python dict assignment: an existing key
is updated in place, a new key is appended. -/
def dictSet {α : Type} (m : List (String × α)) (k : String) (v : α) :
    List (String × α) :=
  match m with
  | [] => [(k, v)]
  | (k2, v2) :: rest => if k2 = k then (k, v) :: rest else (k2, v2) :: dictSet rest k v

/-- Python `str` of a boolean, as produced by `str(permission).encode()`. -/
def pyStr (b : Bool) : String := if b then "True" else "False"

/-! ## Sync lanes (MasterHandler sync state machine) -/

/-- The three synchronization lanes of one worker session. -/
inductive SyncType where
  | integrity
  | extra_valid
  | agent_info
deriving DecidableEq, Repr

/-- The lane-relevant part of a `MasterHandler`: the three `sync_*_free` flags
set in `__init__` (all `True`) and, for each lane, the number of live
`Receive*Task` receive tasks attached to the session. -/
structure HandlerState where
  sync_integrity_free : Bool
  sync_extra_valid_free : Bool
  sync_agent_info_free : Bool
  integrity_tasks : Nat
  extra_valid_tasks : Nat
  agent_info_tasks : Nat
deriving DecidableEq, Repr

/-- State right after `MasterHandler.__init__`: every lane free, no tasks. -/
def initHandler : HandlerState :=
  { sync_integrity_free := true, sync_extra_valid_free := true,
    sync_agent_info_free := true, integrity_tasks := 0,
    extra_valid_tasks := 0, agent_info_tasks := 0 }

def laneFree (s : HandlerState) : SyncType → Bool
  | .integrity => s.sync_integrity_free
  | .extra_valid => s.sync_extra_valid_free
  | .agent_info => s.sync_agent_info_free

def laneTasks (s : HandlerState) : SyncType → Nat
  | .integrity => s.integrity_tasks
  | .extra_valid => s.extra_valid_tasks
  | .agent_info => s.agent_info_tasks

/-- Permission command tag of a lane (`sync_i_w_m_p` / `sync_e_w_m_p` /
`sync_a_w_m_p`). -/
def permCommand : SyncType → String
  | .integrity => "sync_i_w_m_p"
  | .extra_valid => "sync_e_w_m_p"
  | .agent_info => "sync_a_w_m_p"

/-- Setup command tag of a lane (`sync_i_w_m` / `sync_e_w_m` / `sync_a_w_m`). -/
def setupCommand : SyncType → String
  | .integrity => "sync_i_w_m"
  | .extra_valid => "sync_e_w_m"
  | .agent_info => "sync_a_w_m"

/-- Error-report command tag of a lane (`sync_i_w_m_r` etc.). -/
def errorCommand : SyncType → String
  | .integrity => "sync_i_w_m_r"
  | .extra_valid => "sync_e_w_m_r"
  | .agent_info => "sync_a_w_m_r"

/-- `MasterHandler.get_permission`: reads the lane's free flag and answers
`(b'ok', str(permission))`; unknown tags answer `False`. -/
def get_permission (s : HandlerState) (sync_type : String) : String × String :=
  let permission :=
    if sync_type = "sync_i_w_m_p" then s.sync_integrity_free
    else if sync_type = "sync_e_w_m_p" then s.sync_extra_valid_free
    else if sync_type = "sync_a_w_m_p" then s.sync_agent_info_free
    else false
  ("ok", pyStr permission)

/-- `MasterHandler.setup_sync_integrity`: unconditionally clears the lane's
free flag and hands the matching `Receive*Task` class to
`setup_receive_file`, which creates the receive task (modelled as a task
count increment). It performs no busy check of its own. -/
def setup_sync_integrity (s : HandlerState) (sync_type : String) : HandlerState :=
  if sync_type = "sync_i_w_m" then
    { s with sync_integrity_free := false, integrity_tasks := s.integrity_tasks + 1 }
  else if sync_type = "sync_e_w_m" then
    { s with sync_extra_valid_free := false, extra_valid_tasks := s.extra_valid_tasks + 1 }
  else if sync_type = "sync_a_w_m" then
    { s with sync_agent_info_free := false, agent_info_tasks := s.agent_info_tasks + 1 }
  else s

/-- `Receive*Task.done_callback`: runs when the lane's receive task finishes
(successfully or with an exception); restores the lane's free flag and the
task is destroyed. -/
def done_callback (s : HandlerState) : SyncType → HandlerState
  | .integrity =>
    { s with sync_integrity_free := true, integrity_tasks := s.integrity_tasks - 1 }
  | .extra_valid =>
    { s with sync_extra_valid_free := true, extra_valid_tasks := s.extra_valid_tasks - 1 }
  | .agent_info =>
    { s with sync_agent_info_free := true, agent_info_tasks := s.agent_info_tasks - 1 }

/-- `MasterHandler.process_sync_error_from_worker`: marks the lane free on a
worker-reported sync error (before `error_receiving_file` ends the task). -/
def process_sync_error_from_worker (s : HandlerState) (command : String) : HandlerState :=
  if command = "sync_i_w_m_r" then { s with sync_integrity_free := true }
  else if command = "sync_e_w_m_r" then { s with sync_extra_valid_free := true }
  else { s with sync_agent_info_free := true }

/-- Observable protocol events on one session. `requestSync` is the protocol
cycle the spec describes: the worker first sends the lane's permission
command and sends the setup command only when the answer is `True`.
`taskDone` is the completion (or failure) callback of an existing receive
task; `syncError` is a worker error report, after which
`error_receiving_file` ends the existing receive task (its completion
callback included). -/
inductive LaneEvent where
  | requestSync (lane : SyncType)
  | taskDone (lane : SyncType)
  | syncError (lane : SyncType)
deriving DecidableEq, Repr

def step (s : HandlerState) : LaneEvent → HandlerState
  | .requestSync lane =>
    if (get_permission s (permCommand lane)).2 = "True" then
      setup_sync_integrity s (setupCommand lane)
    else s
  | .taskDone lane =>
    if laneTasks s lane = 0 then s else done_callback s lane
  | .syncError lane =>
    let s2 := process_sync_error_from_worker s (errorCommand lane)
    if laneTasks s2 lane = 0 then s2 else done_callback s2 lane

/-- Run a sequence of protocol events from the freshly initialized handler. -/
def runEvents (es : List LaneEvent) : HandlerState := es.foldl step initHandler

/-- Single-flight lane invariant: at most one receive task, and the free flag
is down exactly while a task is in flight. -/
def LaneInvAt (free : Bool) (tasks : Nat) : Prop :=
  tasks ≤ 1 ∧ (free = false ↔ tasks = 1)

def HandlerInv (s : HandlerState) : Prop :=
  LaneInvAt s.sync_integrity_free s.integrity_tasks ∧
  LaneInvAt s.sync_extra_valid_free s.extra_valid_tasks ∧
  LaneInvAt s.sync_agent_info_free s.agent_info_tasks

/-! ## Distributed API correlation (`execute` / `process_dapi_res`) -/

/-- One entry of `pending_api_requests`: `{'Event': asyncio.Event(),
'Response': ''}`. -/
structure PendingRequest where
  eventIsSet : Bool
  response : String
deriving DecidableEq, Repr

/-- The master-server state read by `process_dapi_res`: the pending-request
registry and the names of the local server's clients. -/
structure ServerState where
  pending_api_requests : List (String × PendingRequest)
  local_clients : List String
deriving DecidableEq, Repr

/-- Reply of `process_dapi_res`: either `(b'ok', message)` or a raised
`WazuhClusterError(code)`. -/
inductive DapiReply where
  | ok (msg : String)
  | clusterError (code : Nat)
deriving DecidableEq, Repr

/-- `MasterHandler.process_dapi_res`: if the correlation id is registered, the
entry's `Response` is assigned the payload and its `Event` is set (an
already-set event stays set); ids matching a local client are forwarded;
anything else raises `WazuhClusterError(3032)`. The state is returned next
to the reply (unchanged when nothing is resolved locally). -/
def process_dapi_res (s : ServerState) (req_id : String) (payload : String) :
    ServerState × DapiReply :=
  match dictGet s.pending_api_requests req_id with
  | some _ =>
    ({ s with pending_api_requests :=
        dictSet s.pending_api_requests req_id { eventIsSet := true, response := payload } },
     .ok "Forwarded response")
  | none =>
    if s.local_clients.contains req_id then (s, .ok "Response forwarded to worker")
    else (s, .clusterError 3032)

/-- Set of values `random.randint(0, 2**10 - 1)` can return (both bounds
inclusive). -/
def request_id_draw_space : Finset Nat := Finset.range (2 ^ 10)

/-- The first two lines of `MasterHandler.execute`: draw a correlation id and
register a fresh `PendingRequest` (`{'Event': Event(), 'Response': ''}`)
under `str(draw)`, overwriting any entry already stored under that key. -/
def execute_register (s : ServerState) (draw : Fin (2 ^ 10)) : ServerState × String :=
  let request_id := toString draw.val
  ({ s with pending_api_requests :=
      dictSet s.pending_api_requests request_id { eventIsSet := false, response := "" } },
   request_id)

/-! ## Integrity diff decision (`sync_integrity`) -/

/-- Result of `cluster.compare_files` (external collaborator): the four
classifications of the worker's files, each a map from path to metadata. -/
structure KOFiles where
  missing : List (String × String)
  shared : List (String × String)
  extra : List (String × String)
  extra_valid : List (String × String)
deriving DecidableEq, Repr

/-- `functools.reduce(operator.add, map(len, worker_files_ko.values()))`. -/
def koTotal (ko : KOFiles) : Nat :=
  ko.missing.length + ko.shared.length + ko.extra.length + ko.extra_valid.length

/-- Union of the key sets of two classification maps, as in
`worker_files_ko['shared'].keys() | worker_files_ko['missing'].keys()`. -/
def keysUnion (a b : List (String × String)) : List String :=
  (a.map Prod.fst ++ b.map Prod.fst).dedup

/-- Which reply `sync_integrity` sends after classifying the worker's files:
the `sync_m_c_ok` acknowledgement, or the corrective-archive branch
compressing the listed master file paths. -/
inductive IntegrityReply where
  | noKOFiles
  | koFiles (master_files_paths : List String)
deriving DecidableEq, Repr

/-- Branch choice of `MasterHandler.sync_integrity` on `worker_files_ko`:
`if not functools.reduce(operator.add, map(len, worker_files_ko.values()))`
sends `sync_m_c_ok`; otherwise the archive branch runs on
`shared.keys() | missing.keys()`. -/
def sync_integrity_reply (worker_files_ko : KOFiles) : IntegrityReply :=
  if koTotal worker_files_ko = 0 then .noKOFiles
  else .koFiles (keysUnion worker_files_ko.shared worker_files_ko.missing)

/-! ## File-update applier (`process_files_from_worker` / `update_file`) -/

/-- Root installation path (`common.ossec_path`). -/
def ossec_path : String := "/var/ossec"

/-- Characters after the last `'/'` of the reversed-accumulator scan. -/
def basenameAcc : List Char → List Char → List Char
  | acc, [] => acc.reverse
  | acc, c :: rest => if c = '/' then basenameAcc [] rest else basenameAcc (c :: acc) rest

/-- `os.path.basename`: the part after the last slash. -/
def basename (p : String) : String := String.mk (basenameAcc [] p.data)

/-- Indices of characters of `cs` that are a hyphen with at least one
character on each side. -/
def innerHyphens (cs : List Char) : List Nat :=
  (List.range cs.length).filter (fun i => decide (1 ≤ i) && decide (i + 1 < cs.length)
    && (cs.getD i 'x' == '-'))

/-- Group 1 of `re.match(r'(^.+)-(.+)$', base)`, falling back to `base` when
the pattern does not match: the greedy first group reaches up to the last
hyphen that still leaves a nonempty tail. -/
def agent_name_of (base : String) : String :=
  match (innerHyphens base.data).getLast? with
  | some i => String.mk (base.data.take i)
  | none => base

/-- A `datetime` value: whole seconds since the epoch plus the microseconds
obtained when the `'%Y-%m-%d %H:%M:%S.%f'` format applies (the fallback
`'%Y-%m-%d %H:%M:%S'` format yields `usec = 0`). -/
structure PyDatetime where
  sec : Nat
  usec : Nat
deriving DecidableEq, Repr

/-- Strict `datetime` comparison `a > b` (lexicographic on seconds then
microseconds). -/
def dtGtb (a b : PyDatetime) : Bool :=
  decide (b.sec < a.sec) || (decide (b.sec = a.sec) && decide (b.usec < a.usec))

/-- `datetime.utcfromtimestamp(int(st_mtime))`: whole seconds, no
microseconds. -/
def utcfromtimestamp_int (st_mtime : Nat) : PyDatetime := ⟨st_mtime, 0⟩

/-- `timegm(mtime.timetuple())`: `timetuple()` drops the microseconds, so the
epoch value stored by `os.utime` keeps only whole seconds. -/
def timegm_timetuple (t : PyDatetime) : Nat := t.sec

/-- What the per-sub-file conflict check of `update_file` does to one unmerged
sub-file, given the existing target's (truncated) mtime in seconds, if any. -/
inductive SubFileAction where
  | skippedOldFile
  | written (stored_mtime : PyDatetime)
deriving DecidableEq, Repr

/-- Modification-time decision of `update_file` for one unmerged sub-file:
when the target exists and `datetime.utcfromtimestamp(int(st_mtime)) >
mtime` the sub-file is skipped; otherwise the content is written and
`os.utime` stamps it with `timegm(mtime.timetuple())` seconds. -/
def apply_unmerged_file (local_mtime : Option Nat) (mtime : PyDatetime) : SubFileAction :=
  match local_mtime with
  | some lm =>
    if dtGtb (utcfromtimestamp_int lm) mtime then .skippedOldFile
    else .written ⟨timegm_timetuple mtime, 0⟩
  | none => .written ⟨timegm_timetuple mtime, 0⟩

/-- One tuple produced by `cluster.unmerge_agent_info` (external
collaborator): relative path, content, embedded modification time
(already parsed from its string form). -/
structure SubFile where
  file_path : String
  file_data : String
  file_time : PyDatetime
deriving DecidableEq, Repr

/-- One entry of the decompressed `files_checksums` map. `subfiles` is the
sequence `cluster.unmerge_agent_info` yields for a merged bundle;
`content` / `extracted_mtime` describe the extracted file of a non-merged
entry. -/
structure FileData where
  merged : Bool
  merge_type : String
  merge_name : String
  cluster_item_key : String
  subfiles : List SubFile
  content : String
  extracted_mtime : Nat
deriving DecidableEq, Repr

/-- One file of the master's filesystem model. -/
structure FSFile where
  content : String
  mtime_sec : Nat
deriving DecidableEq, Repr

/-- The agent roster snapshot taken once per batch from
`Agent.get_agents_overview` (external collaborator). -/
structure Roster where
  agent_names : List String
  agent_ids : List String
deriving DecidableEq, Repr

/-- State threaded through the applier: the filesystem, the `n_errors`
warning/error counters keyed by `cluster_item_key`, and the two status
totals `update_file` writes. -/
structure ApplyState where
  fs : List (String × FSFile)
  warnings : List (String × Nat)
  errors : List (String × Nat)
  total_agent_info : Int
  total_extra_valid : Int
deriving DecidableEq, Repr

/-- Counter bump `n_errors[tag][key] = 1 if n_errors[tag].get(key) is None
else n_errors[tag][key] + 1` (the inner, `is None` form). -/
def bump (m : List (String × Nat)) (k : String) : List (String × Nat) :=
  match dictGet m k with
  | none => dictSet m k 1
  | some n => dictSet m k (n + 1)

/-- Counter bump `= 1 if not n_errors[error_tag].get(key) else ... + 1` (the
outer, falsy form used after a caught exception: a stored `0` also resets
to `1`). -/
def bumpFalsy (m : List (String × Nat)) (k : String) : List (String × Nat) :=
  match dictGet m k with
  | none => dictSet m k 1
  | some 0 => dictSet m k 1
  | some (n + 1) => dictSet m k (n + 2)

/-- Body of the `for file_path, file_data, file_time in unmerge_agent_info`
loop of `update_file`. The returned boolean is `true` when the loop goes on
to the next sub-file and `false` for the `return` statement taken on an
old file, which leaves `update_file` altogether. `write_fails` lists the
sub-file paths whose filesystem write raises an `OSError`-like exception,
which the inner handler swallows into the error counter. -/
def processSubfile (is_agent_info : Bool) (key : String) (roster : Roster)
    (write_fails : List String) (st : ApplyState) (sf : SubFile) :
    ApplyState × Bool :=
  let rosterMiss : Bool :=
    if is_agent_info then !(roster.agent_names.contains (agent_name_of (basename sf.file_path)))
    else !(roster.agent_ids.contains (basename sf.file_path))
  if rosterMiss then
    ({ st with warnings := bump st.warnings key }, true)
  else
    let full_unmerged_name := ossec_path ++ sf.file_path
    match apply_unmerged_file ((dictGet st.fs full_unmerged_name).map FSFile.mtime_sec)
        sf.file_time with
    | .skippedOldFile => (st, false)
    | .written stored =>
      if write_fails.contains sf.file_path then
        ({ st with errors := bump st.errors key,
                   total_agent_info :=
                     if is_agent_info then st.total_agent_info - 1 else st.total_agent_info,
                   total_extra_valid :=
                     if is_agent_info then st.total_extra_valid else st.total_extra_valid - 1 },
         true)
      else
        ({ st with fs := dictSet st.fs full_unmerged_name ⟨sf.file_data, stored.sec⟩ }, true)

/-- The sub-file loop of `update_file`, stopping early when `processSubfile`
reports the `return` path. -/
def runSubfiles (is_agent_info : Bool) (key : String) (roster : Roster)
    (write_fails : List String) : ApplyState → List SubFile → ApplyState
  | st, [] => st
  | st, sf :: rest =>
    match processSubfile is_agent_info key roster write_fails st sf with
    | (st2, true) => runSubfiles is_agent_info key roster write_fails st2 rest
    | (st2, false) => st2

/-- `update_file` from `process_files_from_worker`: rejects `client.keys`
targets by raising `WazuhClusterError(3007)` (caught by the
`WazuhException` handler, hence counted under warnings with the falsy
bump); unmerges and applies merged bundles; renames a non-merged extracted
file into place. Advisory per-basename locking brackets the body and has
no observable effect on this single-batch state. -/
def update_file (roster : Roster) (write_fails : List String) (st : ApplyState)
    (name : String) (data : FileData) : ApplyState :=
  if basename name = "client.keys" then
    { st with warnings := bumpFalsy st.warnings data.cluster_item_key }
  else if data.merged then
    let is_agent_info := data.merge_type == "agent-info"
    let st1 :=
      if is_agent_info then { st with total_agent_info := (roster.agent_ids.length : Int) }
      else { st with total_extra_valid := (roster.agent_ids.length : Int) }
    runSubfiles is_agent_info data.cluster_item_key roster write_fails st1 data.subfiles
  else
    { st with fs := dictSet st.fs (ossec_path ++ name) ⟨data.content, data.extracted_mtime⟩ }

/-- `MasterHandler.process_files_from_worker`: snapshots the agent roster once
(it is an argument here, taken before the loop in the source) and applies
`update_file` to every entry of `files_checksums`. -/
def process_files_from_worker (roster : Roster) (write_fails : List String)
    (files_checksums : List (String × FileData)) (st0 : ApplyState) : ApplyState :=
  files_checksums.foldl (fun st fd => update_file roster write_fails st fd.1 fd.2) st0

/-! ## Integrity cycle outcome (`sync_integrity` control flow) -/

/-- Outcome of the receive phase of `sync_integrity`: either
`compare_files` produced a classification, or an exception escaped first
(receive timeout, a captured exception stored as the filename, or a
decompression/diff failure). -/
inductive RecvStep where
  | received (worker_files_ko : KOFiles)
  | raisedBeforeDiff
deriving DecidableEq, Repr

/-- Outcome of the guarded send block of the KO branch (`sync_m_c`,
`send_file`, `sync_m_c_e`). -/
inductive SendAttempt where
  | sendOk
  | failsWazuh
  | failsOther
deriving DecidableEq, Repr

/-- Environment choices resolving every awaited call of one
`sync_integrity` run. -/
structure IntegrityEnv where
  recv : RecvStep
  okSendRaises : Bool
  koSend : SendAttempt
  errorSendRaises : Bool
deriving DecidableEq, Repr

/-- Observable outcome of one `sync_integrity` run, with the lane flag as it
stands after the coroutine and, when it raises, after
`ReceiveIntegrityTask.done_callback`. -/
structure IntegrityRun where
  date_start_recorded : Bool
  date_end_recorded : Bool
  sync_integrity_free : Bool
  archive_created : Bool
  archive_unlinked : Bool
  raised : Bool
deriving DecidableEq, Repr

/-- Control flow of `MasterHandler.sync_integrity`. `date_start_master` is
recorded first. If the receive phase raises, the exception leaves the
coroutine: the end timestamp and the free-flag assignment at the bottom of
the function are skipped, and the lane is freed by the task's
`done_callback`. On an empty classification the `sync_m_c_ok` send runs
(it may itself raise). Otherwise the archive is compressed and the send
block runs under `try/except/finally`: `WazuhException` and generic
failures are handled by an error-report send (which may itself raise), and
`os.unlink` runs in the `finally` in every case. When no exception
escapes, `date_end_master` is recorded and the flag set in the coroutine
itself. -/
def sync_integrity_run (env : IntegrityEnv) : IntegrityRun :=
  match env.recv with
  | .raisedBeforeDiff =>
    { date_start_recorded := true, date_end_recorded := false,
      sync_integrity_free := true, archive_created := false,
      archive_unlinked := false, raised := true }
  | .received ko =>
    if koTotal ko = 0 then
      if env.okSendRaises then
        { date_start_recorded := true, date_end_recorded := false,
          sync_integrity_free := true, archive_created := false,
          archive_unlinked := false, raised := true }
      else
        { date_start_recorded := true, date_end_recorded := true,
          sync_integrity_free := true, archive_created := false,
          archive_unlinked := false, raised := false }
    else
      let escapes :=
        match env.koSend with
        | .sendOk => false
        | .failsWazuh => env.errorSendRaises
        | .failsOther => env.errorSendRaises
      { date_start_recorded := true, date_end_recorded := !escapes,
        sync_integrity_free := true, archive_created := true,
        archive_unlinked := true, raised := escapes }

/-! ## Handshake (`hello`) -/

/-- The `MasterHandler` fields `hello` touches, plus whether the per-lane
task loggers were installed and whether the worker-specific storage
directory exists. -/
structure SessionState where
  version : String
  cluster_name : String
  node_type : String
  task_loggers_created : Bool
  worker_dir_exists : Bool
deriving DecidableEq, Repr

/-- The master-side data `hello` compares against: the configured cluster
name and the master's own version string. -/
structure MasterMeta where
  configured_name : String
  version : String
deriving DecidableEq, Repr

/-- The four space-separated fields of the worker's hello payload. -/
structure HelloData where
  name : String
  cluster_name : String
  node_type : String
  version : String
deriving DecidableEq, Repr

/-- Result of `hello`: the `(cmd, payload)` pair of the base handler, or a
raised `WazuhClusterError` (3030 for the cluster-name mismatch, 3031 for
the version mismatch). -/
inductive HelloOutcome where
  | reply (cmd : String) (payload : String)
  | clusterError (code : Nat)
deriving DecidableEq, Repr

/-- `MasterHandler.hello`. The base-class `hello(name)` result is the
`(super_cmd, super_payload)` input (that call is outside this repository
slice). The task loggers are installed and the session's `version`,
`cluster_name` and `node_type` assigned before the two mismatch checks;
on success the worker directory is created when the base command is
`b'ok'` and the directory is missing. -/
def hello (meta : MasterMeta) (super_cmd super_payload : String)
    (s0 : SessionState) (d : HelloData) : SessionState × HelloOutcome :=
  let s1 := { s0 with task_loggers_created := true }
  let s2 := { s1 with version := d.version, cluster_name := d.cluster_name,
                      node_type := d.node_type }
  if s2.cluster_name ≠ meta.configured_name then (s2, .clusterError 3030)
  else if s2.version ≠ meta.version then (s2, .clusterError 3031)
  else
    let s3 :=
      if super_cmd = "ok" then { s2 with worker_dir_exists := true } else s2
    (s3, .reply super_cmd super_payload)

/-! ## Concrete instances used by the closed theorems -/

/-- Registry holding one unresolved request under correlation id `"5"`. -/
def dapiState0 : ServerState :=
  { pending_api_requests := [("5", { eventIsSet := false, response := "" })],
    local_clients := [] }

/-- State after a first `dapi_res` delivery for id `"5"` with payload `"p1"`. -/
def dapiState1 : ServerState := (process_dapi_res dapiState0 "5" "p1").1

/-- State after a second delivery for the same id with payload `"p2"`. -/
def dapiState2 : ServerState := (process_dapi_res dapiState1 "5" "p2").1

/-- Registry holding an already-resolved request under id `"7"`. -/
def dapiResolvedState : ServerState :=
  { pending_api_requests := [("7", { eventIsSet := true, response := "old" })],
    local_clients := [] }

/-- Classification with nothing shared or missing but one extra file. -/
def koExtraOnly : KOFiles :=
  { missing := [], shared := [], extra := [("c", "md5c")], extra_valid := [] }

/-- Roster snapshot with two known agents. -/
def twoAgentRoster : Roster :=
  { agent_names := ["agent1", "agent2"], agent_ids := ["001", "002"] }

/-- Applier state whose filesystem already holds agent1's status file with
modification time 200. -/
def agentInfoState0 : ApplyState :=
  { fs := [("/var/ossec/queue/agent-info/agent1-any",
            { content := "old", mtime_sec := 200 })],
    warnings := [], errors := [], total_agent_info := 0, total_extra_valid := 0 }

/-- Sub-file for the existing agent whose embedded time (100) is older than
the stored target (200). -/
def oldSubFile : SubFile :=
  { file_path := "/queue/agent-info/agent1-any", file_data := "stale",
    file_time := ⟨100, 0⟩ }

/-- Sub-file for an agent absent from the roster. -/
def ghostSubFile : SubFile :=
  { file_path := "/queue/agent-info/ghost-any", file_data := "gst",
    file_time := ⟨150, 0⟩ }

/-- Sub-file for the existing agent whose embedded time (300) is newer than
the stored target (200). -/
def freshSubFile : SubFile :=
  { file_path := "/queue/agent-info/agent1-any", file_data := "fresh",
    file_time := ⟨300, 0⟩ }

/-- Agent-info merged bundle holding the given sub-files. -/
def agentInfoBundle (subs : List SubFile) : FileData :=
  { merged := true, merge_type := "agent-info", merge_name := "agent-info.merged",
    cluster_item_key := "/queue/agent-info/", subfiles := subs,
    content := "", extracted_mtime := 0 }

/-- Empty roster, for witnesses that do not reach the roster check. -/
def emptyRoster : Roster := { agent_names := [], agent_ids := [] }

/-- Empty applier state. -/
def emptyApplyState : ApplyState :=
  { fs := [], warnings := [], errors := [], total_agent_info := 0,
    total_extra_valid := 0 }

/-- A merged descriptor whose target is the sensitive key file. -/
def keysFileData : FileData :=
  { merged := true, merge_type := "agent-info", merge_name := "m",
    cluster_item_key := "/etc/", subfiles := [], content := "k",
    extracted_mtime := 0 }

/-- Master identity used in the handshake instances. -/
def helloMeta : MasterMeta := { configured_name := "wazuh", version := "3.9.0" }

/-- Session state right after connect, before any hello. -/
def helloSession0 : SessionState :=
  { version := "", cluster_name := "", node_type := "",
    task_loggers_created := false, worker_dir_exists := false }

/-- Hello payload whose cluster name and version both disagree with the
master. -/
def helloBothMismatch : HelloData :=
  { name := "worker1", cluster_name := "other", node_type := "worker",
    version := "3.8.2" }

/-- Hello payload agreeing with the master on both checks. -/
def helloGood : HelloData :=
  { name := "worker1", cluster_name := "wazuh", node_type := "worker",
    version := "3.9.0" }

/-- Hello payload with the right cluster name but a stale version. -/
def helloVersionMismatch : HelloData :=
  { name := "worker1", cluster_name := "wazuh", node_type := "worker",
    version := "3.8.2" }

/-! ## Theorems -/

theorem dictGet_dictSet_self {α : Type} (m : List (String × α)) (k : String) (v : α) :
    dictGet (dictSet m k v) k = some v := by
  induction m with
  | nil => simp [dictGet, dictSet]
  | cons kv rest ih =>
    obtain ⟨k2, v2⟩ := kv
    by_cases h : k2 = k <;> simp [dictGet, dictSet, h, ih]

theorem pyStr_eq_true_iff (b : Bool) : pyStr b = "True" ↔ b = true := by
  cases b <;> simp [pyStr]

theorem get_permission_snd (s : HandlerState) (lane : SyncType) :
    (get_permission s (permCommand lane)).2 = pyStr (laneFree s lane) := by
  cases lane <;> rfl

theorem step_requestSync (s : HandlerState) (lane : SyncType) :
    step s (.requestSync lane) =
      if laneFree s lane then setup_sync_integrity s (setupCommand lane) else s := by
  show (if (get_permission s (permCommand lane)).2 = "True" then
      setup_sync_integrity s (setupCommand lane) else s) = _
  rw [get_permission_snd]
  cases h : laneFree s lane <;> simp [pyStr]

theorem handlerInv_init : HandlerInv initHandler := by
  refine ⟨⟨?_, ?_⟩, ⟨?_, ?_⟩, ⟨?_, ?_⟩⟩ <;> simp [initHandler]

theorem handlerInv_step (s : HandlerState) (e : LaneEvent) (h : HandlerInv s) :
    HandlerInv (step s e) := by
  obtain ⟨⟨hi1, hi2⟩, ⟨he1, he2⟩, ⟨ha1, ha2⟩⟩ := h
  rcases e with l | l | l
  · rw [step_requestSync]
    cases l <;> simp only [laneFree, setupCommand] <;>
      [cases hf : s.sync_integrity_free; cases hf : s.sync_extra_valid_free;
       cases hf : s.sync_agent_info_free] <;>
      simp_all [setup_sync_integrity, HandlerInv, LaneInvAt] <;> omega
  · cases l <;> simp only [step, laneTasks] <;>
      [by_cases ht : s.integrity_tasks = 0; by_cases ht : s.extra_valid_tasks = 0;
       by_cases ht : s.agent_info_tasks = 0] <;>
      simp_all [done_callback, HandlerInv, LaneInvAt]
  · cases l <;>
      simp [step, errorCommand, process_sync_error_from_worker, laneTasks] <;>
      [by_cases ht : s.integrity_tasks = 0; by_cases ht : s.extra_valid_tasks = 0;
       by_cases ht : s.agent_info_tasks = 0] <;>
      simp_all [done_callback, HandlerInv, LaneInvAt]

theorem handlerInv_foldl (es : List LaneEvent) (s : HandlerState) (h : HandlerInv s) :
    HandlerInv (es.foldl step s) := by
  induction es generalizing s with
  | nil => exact h
  | cons e rest ih => exact ih _ (handlerInv_step s e h)

theorem handlerInv_runEvents (es : List LaneEvent) : HandlerInv (runEvents es) :=
  handlerInv_foldl es initHandler handlerInv_init

/-- C1: over every protocol trace, each lane of one worker session carries at
most one live receive task and its free flag is down exactly while that
task is in flight; the permission command answers exactly the flag, a
`requestSync` cycle on a busy lane is the identity (the rejection comes
from the permission check), while the setup call itself never rejects: it
always clears the flag and creates one more receive task. -/
theorem sync_lane_single_flight (es : List LaneEvent) (lane : SyncType) :
    laneTasks (runEvents es) lane ≤ 1 ∧
    (laneFree (runEvents es) lane = false ↔ laneTasks (runEvents es) lane = 1) ∧
    (get_permission (runEvents es) (permCommand lane)).2 =
      pyStr (laneFree (runEvents es) lane) ∧
    step (runEvents es) (.requestSync lane) =
      (if laneFree (runEvents es) lane then
        setup_sync_integrity (runEvents es) (setupCommand lane)
      else runEvents es) ∧
    laneFree (setup_sync_integrity (runEvents es) (setupCommand lane)) lane = false ∧
    laneTasks (setup_sync_integrity (runEvents es) (setupCommand lane)) lane =
      laneTasks (runEvents es) lane + 1 := by
  obtain ⟨⟨hi1, hi2⟩, ⟨he1, he2⟩, ⟨ha1, ha2⟩⟩ := handlerInv_runEvents es
  refine ⟨?_, ?_, get_permission_snd _ _, step_requestSync _ _, ?_, ?_⟩ <;>
    cases lane <;>
    simp_all [laneFree, laneTasks, setupCommand, setup_sync_integrity]

/-- C2 counterexample: two `dapi_res` deliveries for the registered id `"5"`.
The second delivery is not a no-op: it is accepted, mutates the registry
and overwrites the `Response` slot with its own payload, so the value
`execute` reads after resuming is the second payload, not the first. -/
theorem process_dapi_res_second_delivery_not_noop :
    dictGet dapiState1.pending_api_requests "5" =
      some { eventIsSet := true, response := "p1" } ∧
    (process_dapi_res dapiState1 "5" "p2").2 = .ok "Forwarded response" ∧
    dictGet dapiState2.pending_api_requests "5" =
      some { eventIsSet := true, response := "p2" } ∧
    dapiState2 ≠ dapiState1 ∧
    ("p2" : String) ≠ "p1" := by decide

/-- C2 amended: every `dapi_res` delivery for a registered correlation id is
accepted without error (re-setting the already-set event) and overwrites
the response slot, so the caller observes whichever payload was stored
last before it reads — last write wins, not first. -/
theorem process_dapi_res_last_write_wins (s : ServerState) (rid p : String)
    (h : (dictGet s.pending_api_requests rid).isSome = true) :
    (process_dapi_res s rid p).2 = .ok "Forwarded response" ∧
    dictGet (process_dapi_res s rid p).1.pending_api_requests rid =
      some { eventIsSet := true, response := p } := by
  obtain ⟨v, hv⟩ := Option.isSome_iff_exists.mp h
  simp [process_dapi_res, hv, dictGet_dictSet_self]

theorem process_dapi_res_last_write_wins_witness :
    (dictGet dapiResolvedState.pending_api_requests "7").isSome = true ∧
    ((process_dapi_res dapiResolvedState "7" "new").2 = .ok "Forwarded response" ∧
     dictGet (process_dapi_res dapiResolvedState "7" "new").1.pending_api_requests "7" =
       some { eventIsSet := true, response := "new" }) :=
  ⟨by decide, process_dapi_res_last_write_wins dapiResolvedState "7" "new" (by decide)⟩

/-- C3 counterexample: with `shared` and `missing` both empty but one `extra`
file, `sync_integrity` does not take the "no KO files" branch — the total
it tests sums all four classifications — and instead runs the archive
branch over an empty master-file path set. -/
theorem sync_integrity_extra_only_not_no_ko :
    koExtraOnly.shared = [] ∧ koExtraOnly.missing = [] ∧
    sync_integrity_reply koExtraOnly = .koFiles [] ∧
    sync_integrity_reply koExtraOnly ≠ .noKOFiles := by decide

/-- C3 amended: the `sync_m_c_ok` acknowledgement is sent exactly when all
four classifications are empty; when `shared` and `missing` are empty but
the reply is not the acknowledgement, the archive branch runs with an
empty master-file path set. -/
theorem sync_integrity_no_ko_iff_all_empty (ko : KOFiles) :
    (sync_integrity_reply ko = .noKOFiles ↔
      ko.missing = [] ∧ ko.shared = [] ∧ ko.extra = [] ∧ ko.extra_valid = []) ∧
    (ko.shared = [] → ko.missing = [] → sync_integrity_reply ko ≠ .noKOFiles →
      sync_integrity_reply ko = .koFiles []) := by
  constructor
  · constructor
    · intro h
      by_cases h0 : koTotal ko = 0
      · unfold koTotal at h0
        refine ⟨?_, ?_, ?_, ?_⟩ <;> rw [← List.length_eq_zero] <;> omega
      · simp [sync_integrity_reply, h0] at h
    · rintro ⟨h1, h2, h3, h4⟩
      simp [sync_integrity_reply, koTotal, h1, h2, h3, h4]
  · intro hs hm hne
    have hko : ¬ koTotal ko = 0 := by
      intro h0
      exact hne (by simp [sync_integrity_reply, h0])
    simp [sync_integrity_reply, hko, keysUnion, hs, hm]

theorem sync_integrity_no_ko_iff_all_empty_witness :
    sync_integrity_reply koExtraOnly ≠ .noKOFiles ∧
    sync_integrity_reply koExtraOnly = .koFiles [] :=
  ⟨by decide,
   (sync_integrity_no_ko_iff_all_empty koExtraOnly).2 rfl rfl (by decide)⟩

/-- C4 counterexample: an existing target with stored time 50 s and an
incoming sub-file whose embedded time is 100 s + 500000 µs. The file is
replaced, but the stored modification time is the truncated
`timegm(mtime.timetuple())` value — 100 s even — and so does not match
the embedded time exactly. -/
theorem update_file_mtime_truncated_cex :
    dtGtb (utcfromtimestamp_int 50) ⟨100, 500000⟩ = false ∧
    apply_unmerged_file (some 50) ⟨100, 500000⟩ = .written ⟨100, 0⟩ ∧
    (⟨100, 0⟩ : PyDatetime) ≠ ⟨100, 500000⟩ := by decide

/-- C4 amended: when the existing target's (whole-second) modification time
is newer than the sub-file's embedded time the target is left unchanged;
otherwise the content is written and the stored modification time is the
embedded time truncated to whole seconds — an exact match exactly when
the embedded time has no sub-second part. -/
theorem apply_unmerged_file_mtime_spec (lm : Nat) (t : PyDatetime) :
    (dtGtb (utcfromtimestamp_int lm) t = true →
      apply_unmerged_file (some lm) t = .skippedOldFile) ∧
    (dtGtb (utcfromtimestamp_int lm) t = false →
      apply_unmerged_file (some lm) t = .written ⟨t.sec, 0⟩) ∧
    (t.usec = 0 → SubFileAction.written ⟨t.sec, 0⟩ = .written t) := by
  refine ⟨fun h => ?_, fun h => ?_, fun h => ?_⟩
  · simp [apply_unmerged_file, h]
  · simp [apply_unmerged_file, h, timegm_timetuple]
  · cases t
    simp_all

theorem apply_unmerged_file_mtime_spec_witness :
    dtGtb (utcfromtimestamp_int 10) ⟨20, 0⟩ = false ∧
    apply_unmerged_file (some 10) ⟨20, 0⟩ = .written ⟨20, 0⟩ :=
  ⟨by decide, (apply_unmerged_file_mtime_spec 10 ⟨20, 0⟩).2.1 (by decide)⟩

/-- C5: a descriptor whose target basename is `client.keys` is rejected —
`WazuhClusterError(3007)` is raised and swallowed into the warning
counter — and nothing else of the state changes: the filesystem is never
written, whatever the merge flag of the descriptor says. -/
theorem update_file_rejects_client_keys (roster : Roster) (wf : List String)
    (st : ApplyState) (name : String) (data : FileData)
    (h : basename name = "client.keys") :
    update_file roster wf st name data =
      { st with warnings := bumpFalsy st.warnings data.cluster_item_key } := by
  simp [update_file, h]

theorem update_file_rejects_client_keys_witness :
    basename "etc/client.keys" = "client.keys" ∧
    update_file emptyRoster [] emptyApplyState "etc/client.keys" keysFileData =
      { emptyApplyState with
        warnings := bumpFalsy emptyApplyState.warnings keysFileData.cluster_item_key } :=
  ⟨by decide,
   update_file_rejects_client_keys emptyRoster [] emptyApplyState
     "etc/client.keys" keysFileData (by decide)⟩

/-- C6 at its failing input: a merged agent-info bundle holding first a
sub-file whose embedded time is older than the stored target and second a
sub-file of an agent absent from the roster. The old-file branch executes
`return` instead of `continue`, so the whole remainder of the bundle is
abandoned: the absent agent's warning counter is never incremented (the
claim requires exactly one increment) and no later entry is applied. With
the two sub-files in the opposite order the batch behaves as the claim
describes: one warning for the absent agent, and the existing agent's
file rewritten with the embedded content and time. -/
theorem update_file_old_file_aborts_bundle :
    process_files_from_worker twoAgentRoster []
        [("/queue/agent-info/agent-info.merged",
          agentInfoBundle [oldSubFile, ghostSubFile])] agentInfoState0 =
      { agentInfoState0 with total_agent_info := 2 } ∧
    dictGet (process_files_from_worker twoAgentRoster []
        [("/queue/agent-info/agent-info.merged",
          agentInfoBundle [oldSubFile, ghostSubFile])] agentInfoState0).warnings
      "/queue/agent-info/" = none ∧
    (process_files_from_worker twoAgentRoster []
        [("/queue/agent-info/agent-info.merged",
          agentInfoBundle [ghostSubFile, freshSubFile])] agentInfoState0).warnings =
      [("/queue/agent-info/", 1)] ∧
    dictGet (process_files_from_worker twoAgentRoster []
        [("/queue/agent-info/agent-info.merged",
          agentInfoBundle [ghostSubFile, freshSubFile])] agentInfoState0).fs
      "/var/ossec/queue/agent-info/agent1-any" =
      some { content := "fresh", mtime_sec := 300 } := by decide

/-- C7 counterexample: when the receive phase raises (timeout, captured
exception, or decompression failure), the exception leaves `sync_integrity`
before the closing statements: the lane is freed by the task's completion
callback, but `date_end_master` is never recorded, contradicting
"recorded regardless of outcome". -/
theorem sync_integrity_receive_error_skips_date_end :
    (sync_integrity_run ⟨.raisedBeforeDiff, false, .sendOk, false⟩).date_end_recorded
        = false ∧
    (sync_integrity_run ⟨.raisedBeforeDiff, false, .sendOk, false⟩).sync_integrity_free
        = true ∧
    (sync_integrity_run ⟨.raisedBeforeDiff, false, .sendOk, false⟩).raised = true := by
  decide

/-- C7 amended: in every run the lane ends up free (through the coroutine on
clean completion, through the completion callback when it raises); in
every run reaching the KO branch the compressed archive is deleted,
the reverse send succeeding or failing alike; and `date_end_master` is
recorded exactly in the runs no uncaught exception escapes — handled
send failures included, receive/diff failures and a failing error-report
send excluded. -/
theorem sync_integrity_cleanup_spec (env : IntegrityEnv) :
    (sync_integrity_run env).sync_integrity_free = true ∧
    (sync_integrity_run env).archive_unlinked = (sync_integrity_run env).archive_created ∧
    (sync_integrity_run env).date_end_recorded = !(sync_integrity_run env).raised := by
  obtain ⟨recv, oks, kos, errs⟩ := env
  cases recv with
  | raisedBeforeDiff => simp [sync_integrity_run]
  | received ko =>
    by_cases h : koTotal ko = 0 <;> cases oks <;> cases kos <;> cases errs <;>
      simp [sync_integrity_run, h]

/-- C8 counterexample: a worker disagreeing on both the cluster name and the
version is rejected with the cluster-name error 3030, although its version
differs — so "version-mismatch error exactly when the version differs"
fails; the name check takes precedence. -/
theorem hello_both_mismatch_reports_cluster_error :
    helloBothMismatch.version ≠ helloMeta.version ∧
    (hello helloMeta "ok" "payload" helloSession0 helloBothMismatch).2 =
      .clusterError 3030 ∧
    HelloOutcome.clusterError 3030 ≠ .clusterError 3031 := by decide

/-- C8 amended: `hello` rejects with the cluster-name error 3030 exactly when
the worker's cluster name differs from the configured name; with the
version error 3031 exactly when the cluster name matches and the version
differs; when both match it answers the base acknowledgement, has created
the three per-lane task loggers, and has ensured the worker-specific
storage directory exists whenever the base acknowledgement is
affirmative. -/
theorem hello_outcome_spec (meta : MasterMeta) (sc sp : String)
    (s0 : SessionState) (d : HelloData) :
    ((hello meta sc sp s0 d).2 = .clusterError 3030 ↔
      d.cluster_name ≠ meta.configured_name) ∧
    ((hello meta sc sp s0 d).2 = .clusterError 3031 ↔
      (d.cluster_name = meta.configured_name ∧ d.version ≠ meta.version)) ∧
    (d.cluster_name = meta.configured_name → d.version = meta.version →
      (hello meta sc sp s0 d).2 = .reply sc sp ∧
      (hello meta sc sp s0 d).1.task_loggers_created = true ∧
      (sc = "ok" → (hello meta sc sp s0 d).1.worker_dir_exists = true)) := by
  by_cases hn : d.cluster_name = meta.configured_name <;>
    by_cases hv : d.version = meta.version <;>
    by_cases hsc : sc = "ok" <;>
    simp [hello, hn, hv, hsc]

theorem hello_outcome_spec_witness :
    (hello helloMeta "ok" "payload" helloSession0 helloGood).2 = .reply "ok" "payload" ∧
    (hello helloMeta "ok" "payload" helloSession0 helloGood).1.task_loggers_created
        = true ∧
    (hello helloMeta "ok" "payload" helloSession0 helloGood).1.worker_dir_exists
        = true := by
  have h := (hello_outcome_spec helloMeta "ok" "payload" helloSession0 helloGood).2.2
    rfl rfl
  exact ⟨h.1, h.2.1, h.2.2 rfl⟩

/-- C9: the correlation id of an outbound distributed-API call is
`str(random.randint(0, 2**10 - 1))` — a draw from exactly the 1024
integers 0 .. 2^10 - 1 — and registering a call stores a fresh pending
request under that id unconditionally, replacing whatever entry (event
and response slot) a still-pending request had stored there: ids are not
guaranteed fresh while a request is in flight. -/
theorem execute_request_id_space_and_replacement :
    request_id_draw_space.card = 1024 ∧
    (∀ n : Nat, n ∈ request_id_draw_space ↔ n ≤ 2 ^ 10 - 1) ∧
    ∀ (s : ServerState) (draw : Fin (2 ^ 10)),
      (execute_register s draw).2 = toString draw.val ∧
      dictGet (execute_register s draw).1.pending_api_requests (toString draw.val) =
        some { eventIsSet := false, response := "" } := by
  refine ⟨by norm_num [request_id_draw_space], fun n => ?_, fun s draw => ⟨rfl, ?_⟩⟩
  · rw [request_id_draw_space, Finset.mem_range]
    omega
  · simp [execute_register, dictGet_dictSet_self]

/-- C10: when `hello` rejects for a cluster-name or version mismatch, the
session has already been mutated: the per-lane task loggers are installed
and `version`, `cluster_name` and `node_type` carry the worker-supplied
values; only the worker-specific storage directory is left uncreated. -/
theorem hello_mismatch_mutates_session (meta : MasterMeta) (sc sp : String)
    (s0 : SessionState) (d : HelloData)
    (h : d.cluster_name ≠ meta.configured_name ∨ d.version ≠ meta.version) :
    ((hello meta sc sp s0 d).2 = .clusterError 3030 ∨
     (hello meta sc sp s0 d).2 = .clusterError 3031) ∧
    (hello meta sc sp s0 d).1.task_loggers_created = true ∧
    (hello meta sc sp s0 d).1.version = d.version ∧
    (hello meta sc sp s0 d).1.cluster_name = d.cluster_name ∧
    (hello meta sc sp s0 d).1.node_type = d.node_type ∧
    (hello meta sc sp s0 d).1.worker_dir_exists = s0.worker_dir_exists := by
  by_cases hn : d.cluster_name = meta.configured_name <;>
    by_cases hv : d.version = meta.version <;>
    simp_all [hello]

theorem hello_mismatch_mutates_session_witness :
    (helloVersionMismatch.cluster_name ≠ helloMeta.configured_name ∨
     helloVersionMismatch.version ≠ helloMeta.version) ∧
    (((hello helloMeta "ok" "payload" helloSession0 helloVersionMismatch).2 =
        .clusterError 3030 ∨
      (hello helloMeta "ok" "payload" helloSession0 helloVersionMismatch).2 =
        .clusterError 3031) ∧
     (hello helloMeta "ok" "payload" helloSession0 helloVersionMismatch).1.task_loggers_created
        = true ∧
     (hello helloMeta "ok" "payload" helloSession0 helloVersionMismatch).1.version =
        helloVersionMismatch.version ∧
     (hello helloMeta "ok" "payload" helloSession0 helloVersionMismatch).1.cluster_name =
        helloVersionMismatch.cluster_name ∧
     (hello helloMeta "ok" "payload" helloSession0 helloVersionMismatch).1.node_type =
        helloVersionMismatch.node_type ∧
     (hello helloMeta "ok" "payload" helloSession0 helloVersionMismatch).1.worker_dir_exists =
        helloSession0.worker_dir_exists) :=
  ⟨by decide,
   hello_mismatch_mutates_session helloMeta "ok" "payload" helloSession0
     helloVersionMismatch (by decide)⟩

end WazuhMaster
